import Mathlib

/-!
Verification of the content-moderation session orchestrator
(src/content_moderation.py).

The development embeds, as executable Lean definitions, the parts of the
program that the specification's claims are about:

* the result classifier: the flat chain of label-name comparisons
  (lines 365-486) that increments one of 35 same-scope counters, the
  counter row (lines 488-501), the verdict (lines 507-512) and the
  returned dictionary (lines 514-516);
* the job controller: RekognitionVideo.poll_notification (lines 157-179)
  and RekognitionVideo._do_rekognition_job (lines 226-245);
* the notification channel teardown:
  RekognitionVideo.delete_notification_channel (lines 140-155);
* the session sequencing of content_moderation (lines 262-299), with
  explicit failure injection at the job-start, await and fetch steps.

Machine integers do not occur (all counters are Python ints, embedded as
Nat); fallible steps are embedded with explicit raised-error fields.
-/

/-- The 35 category keys in pandas DataFrame column order
(src lines 302-308); the same order is used by the counter row new_row
(lines 488-501) and by the returned dictionary. -/
def categoryKeys : List String :=
  ["nudity", "graphic_male_nudity", "graphic_female_nudity", "sexual_activity",
   "illustrated_explicit_nudity", "adult_toys", "female_swimwear_or_underwear",
   "male_swimwear_or_underwear", "partial_nudity", "barechested_male",
   "revealing_clothes", "sexual_situations", "graphic_violence_or_gore",
   "physical_violence", "weapon_violence", "weapons", "self_injury",
   "emaciated_bodies", "corpses", "hanging", "air_crash",
   "explosions_or_blasts", "middle_finger", "drug_products", "drug_use",
   "pills", "drug_paraphernalia", "tobacco_products", "smoking", "drinking",
   "alcoholic_beverages", "gambling", "nazi_party", "white_supremacy",
   "extremist"]

/-- The if/elif chain of src lines 365-486, read as a function from a raw
detection label name to the category counter it increments (none when no
branch matches, in which case the loop body falls through and no counter
changes).  Branch order and the compared string literals are kept exactly
as in the source, including the literals Illustrated Explicity Nudity and
Explosion Or Blasts; no branch targets alcoholic_beverages. -/
def labelToCategory (label : String) : Option String :=
  if label = "Nudity" then some "nudity"
  else if label = "Graphic Male Nudity" then some "graphic_male_nudity"
  else if label = "Graphic Female Nudity" then some "graphic_female_nudity"
  else if label = "Sexual Activity" then some "sexual_activity"
  else if label = "Illustrated Explicity Nudity" then some "illustrated_explicit_nudity"
  else if label = "Adult Toys" then some "adult_toys"
  else if label = "Female Swimwear Or Underwear" then some "female_swimwear_or_underwear"
  else if label = "Male Swimwear Or Underwear" then some "male_swimwear_or_underwear"
  else if label = "Partial Nudity" then some "partial_nudity"
  else if label = "Barechested Male" then some "barechested_male"
  else if label = "Revealing Clothes" then some "revealing_clothes"
  else if label = "Sexual Situations" then some "sexual_situations"
  else if label = "Graphic Violence Or Gore" then some "graphic_violence_or_gore"
  else if label = "Physical Violence" then some "physical_violence"
  else if label = "Weapon Violence" then some "weapon_violence"
  else if label = "Weapons" then some "weapons"
  else if label = "Self Injury" then some "self_injury"
  else if label = "Emaciated Bodies" then some "emaciated_bodies"
  else if label = "Corpses" then some "corpses"
  else if label = "Hanging" then some "hanging"
  else if label = "Air Crash" then some "air_crash"
  else if label = "Explosion Or Blasts" then some "explosions_or_blasts"
  else if label = "Middle Finger" then some "middle_finger"
  else if label = "Drug Products" then some "drug_products"
  else if label = "Drug Use" then some "drug_use"
  else if label = "Pills" then some "pills"
  else if label = "Drug Paraphernalia" then some "drug_paraphernalia"
  else if label = "Tobacco Products" then some "tobacco_products"
  else if label = "Smoking" then some "smoking"
  else if label = "Drinking" then some "drinking"
  else if label = "Gambling" then some "gambling"
  else if label = "Nazi Party" then some "nazi_party"
  else if label = "White Supremacy" then some "white_supremacy"
  else if label = "Extremist" then some "extremist"
  else none

/-- First-match association-list lookup: Python dictionary access on the
rows built below (their keys are distinct, so first match is the match). -/
def lookupA {α : Type} : List (String × α) → String → Option α
  | [], _ => none
  | (k, v) :: rest, key => if k = key then some v else lookupA rest key

/-- Increment the (first) entry holding the counter for the given category
key, leaving every other entry unchanged; the Python counterpart is the
statement counter += 1 on the matched branch's counter variable. -/
def bump : List (String × Nat) → String → List (String × Nat)
  | [], _ => []
  | (k, n) :: rest, key =>
      if k = key then (k, n + 1) :: rest else (k, n) :: bump rest key

/-- The zero-initialised counter row (src lines 310-363: all 35 counter
variables start at 0), keyed by category in declaration order. -/
def initTally (keys : List String) : List (String × Nat) :=
  keys.map (fun k => (k, 0))

/-- One iteration of the loop of src lines 365-486 on one detection label:
look the label up in the branch chain and increment the selected counter;
an unmatched label changes nothing. -/
def classifyStep (lmap : String → Option String) (t : List (String × Nat))
    (label : String) : List (String × Nat) :=
  match lmap label with
  | some k => bump t k
  | none => t

/-- The classifier of src lines 310-501: fold the per-label step over the
detection labels starting from the zero row.  The taxonomy (ordered
category keys and the label-to-category mapping) is a parameter so that
the specification's statements quantified over taxonomies can be stated;
the source instantiates it with categoryKeys and labelToCategory. -/
def classify (detections : List String) (keys : List String)
    (lmap : String → Option String) : List (String × Nat) :=
  detections.foldl (classifyStep lmap) (initTally keys)

/-- The source's tally: the 35 same-scope counter variables of
src lines 310-486 together with the row new_row of lines 488-501, i.e. the
classifier at the source's own taxonomy. -/
def tallyLabels (detections : List String) : List (String × Nat) :=
  classify detections categoryKeys labelToCategory

/-- labels_count (src line 507): the sum of the row's 35 counters
(df.iloc[0,:].sum() before the label column is added). -/
def labels_count (t : List (String × Nat)) : Nat :=
  (t.map Prod.snd).sum

/-- The verdict of src lines 509-512: allowed when the total count is
below 1, rejected otherwise. -/
def verdictLabel (t : List (String × Nat)) : String :=
  if labels_count t < 1 then "allowed" else "rejected"

/-- A value of the returned Python dictionary: a counter or the verdict
string. -/
inductive PyVal where
  | nat (n : Nat)
  | str (s : String)
deriving DecidableEq

/-- pred_values (src lines 510-514): the returned dictionary, in DataFrame
column order - the 35 category counters followed by the column named
label (added at lines 510/512) holding the verdict string. -/
def pred_values (detections : List String) : List (String × PyVal) :=
  (tallyLabels detections).map (fun p => (p.1, PyVal.nat p.2))
    ++ [("label", PyVal.str (verdictLabel (tallyLabels detections)))]

/-- A completion message as seen after the two JSON decodes of
src lines 171-172: the embedded JobId and Status fields. -/
structure SqsMessage where
  jobId : String
  status : String
deriving DecidableEq

/-- The outcome of RekognitionVideo.poll_notification: still looping with
nothing received (the source loops forever; the embedding stops when the
finite receive trace is exhausted), the correlation-mismatch RuntimeError
of src line 174 (the CorrelationError of the specification), or a
terminal status together with the queue messages deleted on the way. -/
inductive PollResult where
  | pending (deleted : List SqsMessage)
  | correlationError (deleted : List SqsMessage)
  | done (status : String) (deleted : List SqsMessage)
deriving DecidableEq

/-- RekognitionVideo.poll_notification (src lines 157-179) over a finite
trace of receive outcomes (each bounded-wait receive returns at most one
message).  On a message whose JobId differs from job_id the source raises
before deleting (line 174); on a match it records the status, deletes the
message (line 177) and stops. -/
def poll_notification (job_id : String) :
    List (Option SqsMessage) → PollResult
  | [] => .pending []
  | none :: rest => poll_notification job_id rest
  | some m :: _ =>
      if job_id ≠ m.jobId then .correlationError []
      else .done m.status [m]

/-- The value bound to get_labels at src line 291: either the response
dictionary of get_content_moderation, carrying the ModerationLabels list
of raw detection label names, or the plain Python list [] assigned at
src line 244 when the completion status is not SUCCEEDED. -/
inductive JobResults where
  | dict (moderationLabels : List String)
  | emptyList
deriving DecidableEq

/-- The outcome of RekognitionVideo._do_rekognition_job: whether the
results-retrieval call (src line 240) was made, and the value returned. -/
structure JobOutcome where
  fetchInvoked : Bool
  results : JobResults
deriving DecidableEq

/-- RekognitionVideo._do_rekognition_job (src lines 237-245), from the
completion status delivered by poll_notification: only on SUCCEEDED is
_get_rekognition_job_results invoked and its response returned; otherwise
the Python list [] is returned. -/
def do_rekognition_job (status : String) (response : List String) :
    JobOutcome :=
  if status = "SUCCEEDED" then ⟨true, .dict response⟩
  else ⟨false, .emptyList⟩

/-- The subscript get_labels[ModerationLabels] of src line 365: field
access on the response dictionary, but a TypeError on the Python list []
(a list cannot be indexed by a string). -/
def getItem_ModerationLabels : JobResults → Except String (List String)
  | .dict ls => .ok ls
  | .emptyList =>
      .error "TypeError: list indices must be integers or slices, not str"

/-- The notification channel's three sub-resources (true = currently
provisioned): the SNS topic, the SQS queue and the IAM role carrying the
publish grant (the object fields topic, queue, role of RekognitionVideo,
which hold None when absent). -/
structure ChannelState where
  topic : Bool
  queue : Bool
  role : Bool
deriving DecidableEq

/-- Failure injection for delete_notification_channel: whether the remote
deletion of the role (with its policy detach/delete), of the queue, or of
the topic raises. -/
structure DeleteFaults where
  roleFails : Bool
  queueFails : Bool
  topicFails : Bool
deriving DecidableEq

/-- Which of the three deletions delete_notification_channel actually
reached and issued. -/
structure DeleteTrace where
  roleAttempted : Bool
  queueAttempted : Bool
  topicAttempted : Bool
deriving DecidableEq

/-- The outcome of delete_notification_channel: the error it raised if
any, the channel state it left behind, and which deletions it issued. -/
structure DeleteOutcome where
  raised : Option String
  state : ChannelState
  attempted : DeleteTrace
deriving DecidableEq

/-- RekognitionVideo.delete_notification_channel (src lines 140-155).
The source first iterates self.role.attached_policies (line 144) - an
AttributeError when self.role is None - then deletes the role and sets it
to None, then self.queue.delete() and sets it to None, then
self.topic.delete() and sets it to None, in that order, with no exception
handling: the first raised error propagates and the remaining statements
never run. -/
def delete_notification_channel (f : DeleteFaults) (s : ChannelState) :
    DeleteOutcome :=
  if s.role = false then
    ⟨some "AttributeError: NoneType object has no attribute attached_policies",
     s, ⟨false, false, false⟩⟩
  else if f.roleFails then
    ⟨some "ClientError: role deletion failed", s, ⟨true, false, false⟩⟩
  else if s.queue = false then
    ⟨some "AttributeError: NoneType object has no attribute delete",
     ⟨s.topic, s.queue, false⟩, ⟨true, false, false⟩⟩
  else if f.queueFails then
    ⟨some "ClientError: queue deletion failed",
     ⟨s.topic, s.queue, false⟩, ⟨true, true, false⟩⟩
  else if s.topic = false then
    ⟨some "AttributeError: NoneType object has no attribute delete",
     ⟨s.topic, false, false⟩, ⟨true, true, false⟩⟩
  else if f.topicFails then
    ⟨some "ClientError: topic deletion failed",
     ⟨s.topic, false, false⟩, ⟨true, true, true⟩⟩
  else
    ⟨none, ⟨false, false, false⟩, ⟨true, true, true⟩⟩

/-- Failure injection for the session: no failure, or an error raised at
the job-start step (src line 191), the await step (poll_notification), or
the result-fetch step (src line 216). -/
inductive FailPoint where
  | ok
  | atStart
  | atPoll
  | atFetch
deriving DecidableEq

/-- The observable outcome of one session: the propagated error if any,
the state of the notification channel's sub-resources when the session
ends, and the returned dictionary on the normal path. -/
structure SessionOutcome where
  raised : Option String
  channel : ChannelState
  result : Option (List (String × PyVal))
deriving DecidableEq

/-- The session sequencing of content_moderation (src lines 283-516),
starting after create_notification_channel (line 287) has provisioned the
topic, the queue and the role.  The source is straight-line code with no
try/finally: do_content_moderation (line 291) runs first and
delete_notification_channel (line 295) runs only if it returned; an error
injected at the start, await or fetch step propagates out with the
channel untouched.  On the normal path the detections are classified and
the dictionary pred_values is returned. -/
def content_moderation_session (fp : FailPoint) (detections : List String) :
    SessionOutcome :=
  let opened : ChannelState := ⟨true, true, true⟩
  match fp with
  | .atStart => ⟨some "JobStartError", opened, none⟩
  | .atPoll => ⟨some "CorrelationError", opened, none⟩
  | .atFetch => ⟨some "ResultFetchError", opened, none⟩
  | .ok =>
      let d := delete_notification_channel ⟨false, false, false⟩ opened
      ⟨d.raised, d.state, some (pred_values detections)⟩

/-- bump leaves the key column of the row unchanged. -/
theorem bump_map_fst (t : List (String × Nat)) (k : String) :
    (bump t k).map Prod.fst = t.map Prod.fst := by
  induction t with
  | nil => rfl
  | cons p rest ih =>
      obtain ⟨k0, n⟩ := p
      by_cases h : k0 = k
      · simp [bump, h]
      · simp [bump, h, ih]

/-- Looking the bumped key up sees exactly one more than before. -/
theorem lookupA_bump_self (t : List (String × Nat)) (k : String) :
    lookupA (bump t k) k = (lookupA t k).map (· + 1) := by
  induction t with
  | nil => rfl
  | cons p rest ih =>
      obtain ⟨k0, n⟩ := p
      by_cases h : k0 = k
      · simp [bump, h, lookupA]
      · simp [bump, h, lookupA, ih]

/-- Looking any other key up is unchanged by bump. -/
theorem lookupA_bump_ne (t : List (String × Nat)) (k key : String)
    (h : key ≠ k) :
    lookupA (bump t k) key = lookupA t key := by
  induction t with
  | nil => rfl
  | cons p rest ih =>
      obtain ⟨k0, n⟩ := p
      by_cases h0 : k0 = k
      · subst h0
        simp [bump, lookupA, Ne.symm h]
      · by_cases h1 : k0 = key
        · simp [bump, h0, lookupA, h1, h]
        · simp [bump, h0, lookupA, h1, ih]

/-- The zero row holds key k exactly when the taxonomy declares it. -/
theorem lookupA_initTally (keys : List String) (k : String) (h : k ∈ keys) :
    lookupA (initTally keys) k = some 0 := by
  induction keys with
  | nil => cases h
  | cons k0 rest ih =>
      by_cases h0 : k0 = k
      · simp [initTally, lookupA, h0]
      · have hk : k ∈ rest := by
          cases h with
          | head => exact absurd rfl h0
          | tail _ hm => exact hm
        simpa [initTally, lookupA, h0] using ih hk

/-- One classification step leaves the key column unchanged. -/
theorem classifyStep_map_fst (lmap : String → Option String)
    (t : List (String × Nat)) (label : String) :
    (classifyStep lmap t label).map Prod.fst = t.map Prod.fst := by
  cases h : lmap label with
  | none => simp [classifyStep, h]
  | some k => simp [classifyStep, h, bump_map_fst]

/-- The classification fold leaves the key column unchanged. -/
theorem foldl_classifyStep_map_fst (lmap : String → Option String)
    (D : List String) (t : List (String × Nat)) :
    (D.foldl (classifyStep lmap) t).map Prod.fst = t.map Prod.fst := by
  induction D generalizing t with
  | nil => rfl
  | cons l D ih =>
      rw [List.foldl_cons, ih, classifyStep_map_fst]

/-- The key column of the zero row is the taxonomy's key list. -/
theorem initTally_map_fst (keys : List String) :
    (initTally keys).map Prod.fst = keys := by
  induction keys with
  | nil => rfl
  | cons k rest ih =>
      simp only [initTally, List.map_cons] at ih ⊢
      rw [ih]

/-- The key column of the classifier output is the taxonomy's key list. -/
theorem classify_map_fst (D : List String) (keys : List String)
    (lmap : String → Option String) :
    (classify D keys lmap).map Prod.fst = keys := by
  rw [classify, foldl_classifyStep_map_fst, initTally_map_fst]

/-- Counting characterisation of the classification fold: the count seen
at key k grows by exactly the number of processed labels mapped to k. -/
theorem lookupA_foldl_classifyStep (lmap : String → Option String)
    (k : String) (D : List String) (t : List (String × Nat)) :
    lookupA (D.foldl (classifyStep lmap) t) k
      = (lookupA t k).map (· + D.countP (fun l => lmap l == some k)) := by
  induction D generalizing t with
  | nil =>
      simp only [List.foldl_nil, List.countP_nil]
      cases lookupA t k <;> simp
  | cons l D ih =>
      rw [List.foldl_cons, ih]
      cases hl : lmap l with
      | none =>
          have hf : (lmap l == some k) = false := by
            simp [hl]
          simp [classifyStep, hl, List.countP_cons, hf]
      | some k0 =>
          by_cases hk : k0 = k
          · subst hk
            have ht : (lmap l == some k0) = true := by
              simp [hl]
            rw [classifyStep, hl]
            simp only [lookupA_bump_self, List.countP_cons, ht]
            cases lookupA t k0
            · simp
            · simp
              omega
          · have hf : (lmap l == some k) = false := by
              simp [hl, hk]
            rw [classifyStep, hl]
            simp [lookupA_bump_ne t k0 k (fun hh => hk hh.symm),
              List.countP_cons, hf]

/-- The classifier's count at a declared key is the number of detections
whose label is mapped to that key. -/
theorem lookupA_classify (D : List String) (keys : List String)
    (lmap : String → Option String) (k : String) (h : k ∈ keys) :
    lookupA (classify D keys lmap) k
      = some (D.countP (fun l => lmap l == some k)) := by
  rw [classify, lookupA_foldl_classifyStep, lookupA_initTally keys k h]
  simp

/-- Bumps at two category keys commute. -/
theorem bump_comm (t : List (String × Nat)) (k1 k2 : String) :
    bump (bump t k1) k2 = bump (bump t k2) k1 := by
  by_cases hk : k1 = k2
  · rw [hk]
  · induction t with
    | nil => rfl
    | cons p rest ih =>
        obtain ⟨k0, n⟩ := p
        by_cases h1 : k0 = k1 <;> by_cases h2 : k0 = k2
        · exact absurd (h1.symm.trans h2) hk
        · simp [bump, h1, h2, hk]
        · simp [bump, h1, h2, Ne.symm hk]
        · simp [bump, h1, h2, ih]

/-- Two classification steps commute, whatever the two labels are. -/
theorem classifyStep_comm (lmap : String → Option String)
    (t : List (String × Nat)) (a b : String) :
    classifyStep lmap (classifyStep lmap t a) b
      = classifyStep lmap (classifyStep lmap t b) a := by
  cases ha : lmap a <;> cases hb : lmap b <;>
    simp [classifyStep, ha, hb, bump_comm]

/-- No branch of the chain of src lines 365-486 selects the
alcoholic_beverages counter. -/
theorem labelToCategory_ne_alcoholic (label : String) :
    labelToCategory label ≠ some "alcoholic_beverages" := by
  intro h
  unfold labelToCategory at h
  by_cases h1 : label = "Nudity"
  · rw [if_pos h1] at h
    exact absurd (Option.some.inj h) (by decide)
  rw [if_neg h1] at h
  by_cases h2 : label = "Graphic Male Nudity"
  · rw [if_pos h2] at h
    exact absurd (Option.some.inj h) (by decide)
  rw [if_neg h2] at h
  by_cases h3 : label = "Graphic Female Nudity"
  · rw [if_pos h3] at h
    exact absurd (Option.some.inj h) (by decide)
  rw [if_neg h3] at h
  by_cases h4 : label = "Sexual Activity"
  · rw [if_pos h4] at h
    exact absurd (Option.some.inj h) (by decide)
  rw [if_neg h4] at h
  by_cases h5 : label = "Illustrated Explicity Nudity"
  · rw [if_pos h5] at h
    exact absurd (Option.some.inj h) (by decide)
  rw [if_neg h5] at h
  by_cases h6 : label = "Adult Toys"
  · rw [if_pos h6] at h
    exact absurd (Option.some.inj h) (by decide)
  rw [if_neg h6] at h
  by_cases h7 : label = "Female Swimwear Or Underwear"
  · rw [if_pos h7] at h
    exact absurd (Option.some.inj h) (by decide)
  rw [if_neg h7] at h
  by_cases h8 : label = "Male Swimwear Or Underwear"
  · rw [if_pos h8] at h
    exact absurd (Option.some.inj h) (by decide)
  rw [if_neg h8] at h
  by_cases h9 : label = "Partial Nudity"
  · rw [if_pos h9] at h
    exact absurd (Option.some.inj h) (by decide)
  rw [if_neg h9] at h
  by_cases h10 : label = "Barechested Male"
  · rw [if_pos h10] at h
    exact absurd (Option.some.inj h) (by decide)
  rw [if_neg h10] at h
  by_cases h11 : label = "Revealing Clothes"
  · rw [if_pos h11] at h
    exact absurd (Option.some.inj h) (by decide)
  rw [if_neg h11] at h
  by_cases h12 : label = "Sexual Situations"
  · rw [if_pos h12] at h
    exact absurd (Option.some.inj h) (by decide)
  rw [if_neg h12] at h
  by_cases h13 : label = "Graphic Violence Or Gore"
  · rw [if_pos h13] at h
    exact absurd (Option.some.inj h) (by decide)
  rw [if_neg h13] at h
  by_cases h14 : label = "Physical Violence"
  · rw [if_pos h14] at h
    exact absurd (Option.some.inj h) (by decide)
  rw [if_neg h14] at h
  by_cases h15 : label = "Weapon Violence"
  · rw [if_pos h15] at h
    exact absurd (Option.some.inj h) (by decide)
  rw [if_neg h15] at h
  by_cases h16 : label = "Weapons"
  · rw [if_pos h16] at h
    exact absurd (Option.some.inj h) (by decide)
  rw [if_neg h16] at h
  by_cases h17 : label = "Self Injury"
  · rw [if_pos h17] at h
    exact absurd (Option.some.inj h) (by decide)
  rw [if_neg h17] at h
  by_cases h18 : label = "Emaciated Bodies"
  · rw [if_pos h18] at h
    exact absurd (Option.some.inj h) (by decide)
  rw [if_neg h18] at h
  by_cases h19 : label = "Corpses"
  · rw [if_pos h19] at h
    exact absurd (Option.some.inj h) (by decide)
  rw [if_neg h19] at h
  by_cases h20 : label = "Hanging"
  · rw [if_pos h20] at h
    exact absurd (Option.some.inj h) (by decide)
  rw [if_neg h20] at h
  by_cases h21 : label = "Air Crash"
  · rw [if_pos h21] at h
    exact absurd (Option.some.inj h) (by decide)
  rw [if_neg h21] at h
  by_cases h22 : label = "Explosion Or Blasts"
  · rw [if_pos h22] at h
    exact absurd (Option.some.inj h) (by decide)
  rw [if_neg h22] at h
  by_cases h23 : label = "Middle Finger"
  · rw [if_pos h23] at h
    exact absurd (Option.some.inj h) (by decide)
  rw [if_neg h23] at h
  by_cases h24 : label = "Drug Products"
  · rw [if_pos h24] at h
    exact absurd (Option.some.inj h) (by decide)
  rw [if_neg h24] at h
  by_cases h25 : label = "Drug Use"
  · rw [if_pos h25] at h
    exact absurd (Option.some.inj h) (by decide)
  rw [if_neg h25] at h
  by_cases h26 : label = "Pills"
  · rw [if_pos h26] at h
    exact absurd (Option.some.inj h) (by decide)
  rw [if_neg h26] at h
  by_cases h27 : label = "Drug Paraphernalia"
  · rw [if_pos h27] at h
    exact absurd (Option.some.inj h) (by decide)
  rw [if_neg h27] at h
  by_cases h28 : label = "Tobacco Products"
  · rw [if_pos h28] at h
    exact absurd (Option.some.inj h) (by decide)
  rw [if_neg h28] at h
  by_cases h29 : label = "Smoking"
  · rw [if_pos h29] at h
    exact absurd (Option.some.inj h) (by decide)
  rw [if_neg h29] at h
  by_cases h30 : label = "Drinking"
  · rw [if_pos h30] at h
    exact absurd (Option.some.inj h) (by decide)
  rw [if_neg h30] at h
  by_cases h31 : label = "Gambling"
  · rw [if_pos h31] at h
    exact absurd (Option.some.inj h) (by decide)
  rw [if_neg h31] at h
  by_cases h32 : label = "Nazi Party"
  · rw [if_pos h32] at h
    exact absurd (Option.some.inj h) (by decide)
  rw [if_neg h32] at h
  by_cases h33 : label = "White Supremacy"
  · rw [if_pos h33] at h
    exact absurd (Option.some.inj h) (by decide)
  rw [if_neg h33] at h
  by_cases h34 : label = "Extremist"
  · rw [if_pos h34] at h
    exact absurd (Option.some.inj h) (by decide)
  rw [if_neg h34] at h
  exact Option.noConfusion h

/-- A key absent from the key column looks up to nothing. -/
theorem lookupA_eq_none {α : Type} (t : List (String × α)) (k : String)
    (h : k ∉ t.map Prod.fst) :
    lookupA t k = none := by
  induction t with
  | nil => rfl
  | cons p rest ih =>
      obtain ⟨k0, v⟩ := p
      simp only [List.map_cons, List.mem_cons] at h
      push_neg at h
      have h0 : ¬k0 = k := fun hh => h.1 hh.symm
      simp [lookupA, h0, ih h.2]

/-- Lookup walks past a first block that does not hold the key. -/
theorem lookupA_append_of_none {α : Type} (t1 t2 : List (String × α))
    (k : String) (h : lookupA t1 k = none) :
    lookupA (t1 ++ t2) k = lookupA t2 k := by
  induction t1 with
  | nil => rfl
  | cons p rest ih =>
      obtain ⟨k0, v⟩ := p
      by_cases h0 : k0 = k
      · simp [lookupA, h0] at h
      · simp [lookupA, h0] at h ⊢
        exact ih h

/-- Claim C1: for every taxonomy (ordered category keys plus a
label-to-category mapping on exact string match) and every detection
sequence, classify returns a tally whose keys are exactly the taxonomy's
category keys, in which each declared key's count is the number of
detections whose label maps to that key; keys matched by no detection
stay 0 (the count formula gives 0 there), and a detection whose label has
no taxonomy entry is ignored without error (appending it changes
nothing). -/
theorem classify_spec (keys : List String) (lmap : String → Option String)
    (D : List String) :
    ((classify D keys lmap).map Prod.fst = keys)
    ∧ (∀ k, k ∈ keys →
        lookupA (classify D keys lmap) k
          = some (D.countP (fun l => lmap l == some k)))
    ∧ (∀ l, lmap l = none →
        classify (D ++ [l]) keys lmap = classify D keys lmap) := by
  refine ⟨classify_map_fst D keys lmap, ?_, ?_⟩
  · intro k hk
    exact lookupA_classify D keys lmap k hk
  · intro l hl
    simp [classify, List.foldl_append, classifyStep, hl]

/-- Witness for C1 at the specification's Scenario A detections and the
source's own taxonomy: two Nudity detections give count 2 at nudity. -/
theorem classify_spec_witness :
    lookupA (classify ["Nudity", "Weapons", "Nudity"] categoryKeys
        labelToCategory) "nudity" = some 2 := by
  have h := (classify_spec categoryKeys labelToCategory
    ["Nudity", "Weapons", "Nudity"]).2.1 "nudity" (by decide)
  rw [h]
  decide

/-- Claim C2: the verdict is allowed exactly when the tally's total count
is 0, and any single tally entry with a nonzero count forces the verdict
rejected. -/
theorem verdict_spec (t : List (String × Nat)) :
    (verdictLabel t = "allowed" ↔ labels_count t = 0)
    ∧ (∀ p, p ∈ t → p.2 ≠ 0 → verdictLabel t = "rejected") := by
  constructor
  · unfold verdictLabel
    by_cases h : labels_count t < 1
    · rw [if_pos h]
      exact ⟨fun _ => by omega, fun _ => rfl⟩
    · rw [if_neg h]
      exact ⟨fun hr => absurd hr (by decide), fun h0 => by omega⟩
  · intro p hp hne
    have hmem : p.2 ∈ t.map Prod.snd := List.mem_map_of_mem Prod.snd hp
    have hle : p.2 ≤ (t.map Prod.snd).sum := List.le_sum_of_mem hmem
    have hlt : ¬labels_count t < 1 := by
      unfold labels_count
      omega
    unfold verdictLabel
    rw [if_neg hlt]

/-- Witness for C2: a tally carrying one nonzero entry is rejected. -/
theorem verdict_spec_witness :
    verdictLabel [("nudity", 2), ("weapons", 1)] = "rejected" :=
  (verdict_spec [("nudity", 2), ("weapons", 1)]).2 ("nudity", 2)
    (by decide) (by decide)

/-- Claim C8: for every taxonomy and every pair of detection sequences
that are permutations of each other, classify returns the same tally. -/
theorem classify_perm_invariant (keys : List String)
    (lmap : String → Option String) (D1 D2 : List String)
    (h : D1.Perm D2) :
    classify D1 keys lmap = classify D2 keys lmap := by
  unfold classify
  exact h.foldl_eq' (fun x _ y _ z => classifyStep_comm lmap z x y) _

/-- Witness for C8 on a two-element swap at the source's taxonomy. -/
theorem classify_perm_invariant_witness :
    classify ["Nudity", "Weapons"] categoryKeys labelToCategory
      = classify ["Weapons", "Nudity"] categoryKeys labelToCategory :=
  classify_perm_invariant categoryKeys labelToCategory _ _
    (List.Perm.swap "Weapons" "Nudity" [])

/-- Claim C9: for every detection sequence the returned tally holds the
key alcoholic_beverages with count 0 - the key is declared in the
taxonomy and always present in the output, but no branch of the label
chain increments its counter. -/
theorem alcoholic_beverages_always_zero (D : List String) :
    lookupA (tallyLabels D) "alcoholic_beverages" = some 0 := by
  rw [tallyLabels,
    lookupA_classify D categoryKeys labelToCategory _ (by decide)]
  congr 1
  rw [List.countP_eq_zero]
  intro l _
  simp only [beq_iff_eq]
  exact labelToCategory_ne_alcoholic l

/-- Claim C10: the dictionary returned for every successful session holds
exactly the 35 category keys followed by one further key named label (not
verdict) whose value is the string allowed or the string rejected. -/
theorem pred_values_spec (D : List String) :
    ((pred_values D).map Prod.fst = categoryKeys ++ ["label"])
    ∧ categoryKeys.length = 35
    ∧ "verdict" ∉ (pred_values D).map Prod.fst
    ∧ (lookupA (pred_values D) "label" = some (PyVal.str "allowed")
        ∨ lookupA (pred_values D) "label" = some (PyVal.str "rejected")) := by
  have htkeys : (tallyLabels D).map Prod.fst = categoryKeys :=
    classify_map_fst D categoryKeys labelToCategory
  have hmapfst : ((tallyLabels D).map
        (fun p => (p.1, PyVal.nat p.2))).map Prod.fst
      = (tallyLabels D).map Prod.fst := by
    rw [List.map_map]
    rfl
  have hkeys : (pred_values D).map Prod.fst = categoryKeys ++ ["label"] := by
    unfold pred_values
    rw [List.map_append, hmapfst, htkeys]
    rfl
  refine ⟨hkeys, by decide, ?_, ?_⟩
  · rw [hkeys]
    decide
  · have hnone : lookupA ((tallyLabels D).map
          (fun p => (p.1, PyVal.nat p.2))) "label" = none := by
      apply lookupA_eq_none
      rw [hmapfst, htkeys]
      decide
    unfold pred_values
    rw [lookupA_append_of_none _ _ _ hnone]
    unfold verdictLabel
    by_cases h : labels_count (tallyLabels D) < 1
    · left
      rw [if_pos h]
      simp [lookupA]
    · right
      rw [if_neg h]
      simp [lookupA]

/-- Claim C3 (code-bug record): on a FAILED completion status the
results-retrieval call is never made and _do_rekognition_job returns the
Python list [] (src line 244), so the subscript
get_labels[ModerationLabels] at src line 365 raises a TypeError instead
of yielding the all-zero tally and allowed verdict the specification
promises. -/
theorem failed_status_raises_typeerror (response : List String) :
    (do_rekognition_job "FAILED" response).fetchInvoked = false
    ∧ getItem_ModerationLabels
        (do_rekognition_job "FAILED" response).results
      = Except.error
          "TypeError: list indices must be integers or slices, not str" := by
  exact ⟨rfl, rfl⟩

/-- Claim C4 counterexample: with a failure injected at the job-start
step, the session ends with the notification channel's topic, queue and
grant all still present - the source has no try/finally, so
delete_notification_channel is never reached on an error path. -/
theorem teardown_leak_at_start :
    (content_moderation_session FailPoint.atStart []).channel
        = ⟨true, true, true⟩
    ∧ (content_moderation_session FailPoint.atStart []).raised
        = some "JobStartError" := by
  exact ⟨rfl, rfl⟩

/-- Claim C4 amended: teardown runs only on the failure-free path, where
all three sub-resources end up deleted; a failure injected at the
job-start, await or fetch step propagates before teardown runs, and all
three sub-resources are still present when the session ends (a full leak,
not the specified absence). -/
theorem teardown_amended (fp : FailPoint) (D : List String) :
    (fp = FailPoint.ok →
      (content_moderation_session fp D).channel = ⟨false, false, false⟩)
    ∧ (fp ≠ FailPoint.ok →
      (content_moderation_session fp D).channel = ⟨true, true, true⟩) := by
  cases fp
  · exact ⟨fun _ => rfl, fun h => absurd rfl h⟩
  · exact ⟨fun h => FailPoint.noConfusion h, fun _ => rfl⟩
  · exact ⟨fun h => FailPoint.noConfusion h, fun _ => rfl⟩
  · exact ⟨fun h => FailPoint.noConfusion h, fun _ => rfl⟩

/-- Witness for the amended C4 at a concrete injected failure. -/
theorem teardown_amended_witness :
    (content_moderation_session FailPoint.atPoll []).channel
      = ⟨true, true, true⟩ :=
  (teardown_amended FailPoint.atPoll []).2 (by decide)

/-- Claim C5: while awaiting a given job id, the first received
notification whose embedded job id differs makes poll_notification stop
with the correlation error of src line 174 instead of returning a status,
and no message is deleted from the queue. -/
theorem poll_notification_correlation (job_id : String)
    (pre : List (Option SqsMessage)) (m : SqsMessage)
    (rest : List (Option SqsMessage))
    (hpre : ∀ x, x ∈ pre → x = none) (hm : m.jobId ≠ job_id) :
    poll_notification job_id (pre ++ (some m :: rest))
      = PollResult.correlationError [] := by
  induction pre with
  | nil =>
      simp only [List.nil_append]
      unfold poll_notification
      rw [if_pos (fun hh => hm hh.symm)]
  | cons x pre ih =>
      have hx : x = none := hpre x (List.mem_cons_self x pre)
      subst hx
      simp only [List.cons_append]
      unfold poll_notification
      exact ih (fun y hy => hpre y (List.mem_cons_of_mem none hy))

/-- Witness for C5: awaiting job Y while a notification for job X is the
first message on the queue. -/
theorem poll_notification_correlation_witness :
    poll_notification "Y" [some ⟨"X", "SUCCEEDED"⟩]
      = PollResult.correlationError [] :=
  poll_notification_correlation "Y" [] ⟨"X", "SUCCEEDED"⟩ []
    (fun x hx => absurd hx (List.not_mem_nil x)) (by decide)

/-- Claim C6 counterexample: calling delete_notification_channel on an
already-closed channel (all three fields None) raises an AttributeError
at the self.role.attached_policies access of src line 144; close on a
closed channel is not a no-op. -/
theorem close_closed_raises :
    (delete_notification_channel ⟨false, false, false⟩
        ⟨false, false, false⟩).raised
      = some "AttributeError: NoneType object has no attribute attached_policies" :=
  rfl

/-- Claim C6 amended: close is not idempotent - a close that raised
nothing leaves all three fields None, and a second close on the state it
left behind raises an AttributeError instead of being a no-op. -/
theorem close_not_idempotent (s : ChannelState)
    (h : (delete_notification_channel ⟨false, false, false⟩ s).raised
        = none) :
    (delete_notification_channel ⟨false, false, false⟩
        (delete_notification_channel ⟨false, false, false⟩ s).state).raised
      = some "AttributeError: NoneType object has no attribute attached_policies" := by
  obtain ⟨st, sq, sr⟩ := s
  revert h
  cases st <;> cases sq <;> cases sr <;> decide

/-- Witness for the amended C6: a second close right after a successful
close of a fully-open channel. -/
theorem close_not_idempotent_witness :
    (delete_notification_channel ⟨false, false, false⟩
        (delete_notification_channel ⟨false, false, false⟩
          ⟨true, true, true⟩).state).raised
      = some "AttributeError: NoneType object has no attribute attached_policies" :=
  close_not_idempotent ⟨true, true, true⟩ (by decide)

/-- Claim C7 counterexample: with the grant (role) deletion failing on a
fully-open channel, the queue and topic deletions are never attempted,
the channel keeps all three sub-resources, and the single role error is
what surfaces - the remaining deletions are not attempted and failures
are not collected together. -/
theorem delete_failure_aborts_rest :
    (delete_notification_channel ⟨true, false, false⟩
        ⟨true, true, true⟩).attempted = ⟨true, false, false⟩
    ∧ (delete_notification_channel ⟨true, false, false⟩
        ⟨true, true, true⟩).state = ⟨true, true, true⟩
    ∧ (delete_notification_channel ⟨true, false, false⟩
        ⟨true, true, true⟩).raised
        = some "ClientError: role deletion failed" := by
  exact ⟨rfl, rfl, rfl⟩

/-- Claim C7 amended: close deletes in the order grant, queue, topic, but
the first deletion failure propagates immediately and the remaining
deletions are not attempted; failures are never collected. -/
theorem delete_order_and_abort (f : DeleteFaults) :
    (f.roleFails = true →
      (delete_notification_channel f ⟨true, true, true⟩).attempted
          = ⟨true, false, false⟩
      ∧ (delete_notification_channel f ⟨true, true, true⟩).state
          = ⟨true, true, true⟩)
    ∧ (f.roleFails = false → f.queueFails = true →
      (delete_notification_channel f ⟨true, true, true⟩).attempted
          = ⟨true, true, false⟩
      ∧ (delete_notification_channel f ⟨true, true, true⟩).state
          = ⟨true, true, false⟩)
    ∧ (f.roleFails = false → f.queueFails = false → f.topicFails = true →
      (delete_notification_channel f ⟨true, true, true⟩).attempted
          = ⟨true, true, true⟩
      ∧ (delete_notification_channel f ⟨true, true, true⟩).state
          = ⟨true, false, false⟩)
    ∧ (f.roleFails = false → f.queueFails = false → f.topicFails = false →
      (delete_notification_channel f ⟨true, true, true⟩).raised = none
      ∧ (delete_notification_channel f ⟨true, true, true⟩).attempted
          = ⟨true, true, true⟩
      ∧ (delete_notification_channel f ⟨true, true, true⟩).state
          = ⟨false, false, false⟩) := by
  obtain ⟨fr, fq, ft⟩ := f
  cases fr <;> cases fq <;> cases ft <;>
    exact ⟨by decide, by decide, by decide, by decide⟩

/-- Witness for the amended C7: the queue deletion failing right after a
successful grant deletion leaves the topic undeleted. -/
theorem delete_order_and_abort_witness :
    (delete_notification_channel ⟨false, true, false⟩
        ⟨true, true, true⟩).attempted = ⟨true, true, false⟩
    ∧ (delete_notification_channel ⟨false, true, false⟩
        ⟨true, true, true⟩).state = ⟨true, true, false⟩ :=
  (delete_order_and_abort ⟨false, true, false⟩).2.1 rfl rfl
